import Mathlib

/-!
Shallow embedding of the GAIT Blender-automation scripts
(`Manual_Automation.py`, `blender_batch_controller.py`, and the combined
"Manual No Occlusion" / "Manual With Occlusion" script), together with
theorems settling the specification claims about them.

The scripts drive Blender through `bpy`; the host application's operators are
opaque.  What the repository itself computes — camera angles and positions,
frame-range batching, index clamping, command-line flag parsing and the order
of subprocess launches — is embedded here as executable Lean definitions
(real-valued trigonometry excepted, which is modelled over `ℝ`).
-/

-- --------------------------
-- CONFIGURATION (shared by both automation scripts)
-- --------------------------

def CAMERA_COUNT : ℕ := 11
def CAMERA_ANGLE_STEP : ℕ := 18

noncomputable def CAMERA_RADIUS : ℝ := 10
noncomputable def CAMERA_HEIGHT : ℝ := 1.5

def RENDER_FRAME_START : ℕ := 2
def RENDER_FRAME_END : ℕ := 75
def RENDER_BATCH_SIZE : ℕ := 10

-- --------------------------
-- Python `range` over naturals (start, stop, positive step)
-- --------------------------

/-- Python `range(start, stop, step)` for a positive `step` over naturals:
the values `start, start + step, ...` strictly below `stop`. -/
def pythonRange (start stop step : ℕ) : List ℕ :=
  (List.range ((stop - start + step - 1) / step)).map (fun i => start + i * step)

/-- Python `range(a, b)` over integers (step 1): `a, a+1, ..., b-1`. -/
def pythonRangeInt (a b : ℤ) : List ℤ :=
  (List.range (b - a).toNat).map (fun i : ℕ => a + (i : ℤ))

-- --------------------------
-- Frame-range batching (render_all_cameras / render_cameras_in_range)
-- --------------------------

/-- The batch start frames of the inner render loop:
`range(RENDER_FRAME_START, RENDER_FRAME_END + 1, RENDER_BATCH_SIZE)`. -/
def batch_starts : List ℕ :=
  pythonRange RENDER_FRAME_START (RENDER_FRAME_END + 1) RENDER_BATCH_SIZE

/-- The batches rendered by the inner loop: each start `b` is paired with
`batch_end = min(b + RENDER_BATCH_SIZE - 1, RENDER_FRAME_END)`. -/
def batches : List (ℕ × ℕ) :=
  batch_starts.map (fun b => (b, min (b + RENDER_BATCH_SIZE - 1) RENDER_FRAME_END))

/-- The batches whose inclusive frame interval contains frame `f`. -/
def coveringBatches (f : ℕ) : List (ℕ × ℕ) :=
  batches.filter (fun p => decide (p.1 ≤ f) && decide (f ≤ p.2))

/-- C2: the inner batch loop partitions the inclusive frame range
[RENDER_FRAME_START, RENDER_FRAME_END]: every frame in the range lies in
exactly one batch, batches are issued in strictly increasing frame order,
and every batch except possibly the last spans exactly RENDER_BATCH_SIZE
frames. -/
theorem render_batches_partition_frame_range :
    (∀ f ∈ Finset.Icc RENDER_FRAME_START RENDER_FRAME_END,
      (coveringBatches f).length = 1) ∧
    List.Chain' (fun p q : ℕ × ℕ => p.2 < q.1) batches ∧
    (∀ p ∈ batches.dropLast, p.2 + 1 - p.1 = RENDER_BATCH_SIZE) := by
  have hb : batches =
      [(2, 11), (12, 21), (22, 31), (32, 41), (42, 51), (52, 61), (62, 71), (72, 75)] := by
    decide
  refine ⟨?_, ?_, ?_⟩
  · intro f hf
    rw [Finset.mem_Icc] at hf
    obtain ⟨h1, h2⟩ := hf
    rw [RENDER_FRAME_START] at h1
    rw [RENDER_FRAME_END] at h2
    interval_cases f <;> decide
  · rw [hb]
    simp [List.chain'_cons]
  · rw [hb]
    decide

/-- C3: whether a given frame value begins a batch of the batching loop is
decided by a remainder test: the iteration values produced by the stepped
range are exactly the in-range frames `b` with
`(b - RENDER_FRAME_START) % RENDER_BATCH_SIZE = 0`. -/
theorem batch_boundary_iff_modulus (b : ℕ) :
    b ∈ batch_starts ↔
      RENDER_FRAME_START ≤ b ∧ b ≤ RENDER_FRAME_END ∧
        (b - RENDER_FRAME_START) % RENDER_BATCH_SIZE = 0 := by
  have hb : batch_starts = [2, 12, 22, 32, 42, 52, 62, 72] := by decide
  rw [hb]
  simp only [List.mem_cons, List.not_mem_nil, or_false,
    RENDER_FRAME_START, RENDER_FRAME_END, RENDER_BATCH_SIZE]
  omega

-- --------------------------
-- render_cameras_in_range: clamping and the rendered index range
-- --------------------------

/-- The camera indices rendered by `render_cameras_in_range(start_idx, end_idx)`
on a scene with `ncams` cameras: after the early return on an empty camera
list, `start_idx` is clamped to `max(0, start_idx)`, `end_idx` to
`min(len(cameras) - 1, end_idx)`, and the loop runs over
`range(start_idx, end_idx + 1)`. -/
def render_cameras_in_range (ncams : ℕ) (start_idx end_idx : ℤ) : List ℤ :=
  if ncams = 0 then []
  else
    let s := max 0 start_idx
    let e := min ((ncams : ℤ) - 1) end_idx
    pythonRangeInt s (e + 1)

/-- C8: for every pair of integer indices, every index the loop uses lies in
[0, ncams - 1] (so the cameras list is never indexed out of bounds), and when
the clamped start exceeds the clamped end the loop renders no camera. -/
theorem render_cameras_in_range_safe :
    (∀ (ncams : ℕ) (s e idx : ℤ),
      idx ∈ render_cameras_in_range ncams s e → 0 ≤ idx ∧ idx < (ncams : ℤ)) ∧
    (∀ (ncams : ℕ) (s e : ℤ),
      min ((ncams : ℤ) - 1) e < max 0 s → render_cameras_in_range ncams s e = []) := by
  constructor
  · intro ncams s e idx h
    by_cases hn : ncams = 0
    · rw [hn] at h
      simp [render_cameras_in_range] at h
    · simp only [render_cameras_in_range, if_neg hn, pythonRangeInt] at h
      rw [List.mem_map] at h
      obtain ⟨i, hi, heq⟩ := h
      rw [List.mem_range] at hi
      subst heq
      omega
  · intro ncams s e h
    by_cases hn : ncams = 0
    · simp [render_cameras_in_range, hn]
    · simp only [render_cameras_in_range, if_neg hn, pythonRangeInt]
      have h0 : (min ((ncams : ℤ) - 1) e + 1 - max 0 s).toNat = 0 := by omega
      rw [h0]
      simp

/-- Witness for C8: with 4 cameras, index 0 is rendered for the range
(-5, 100) and lies in bounds; the inverted range (10, 3) renders nothing. -/
theorem render_cameras_in_range_safe_witness :
    ((0 : ℤ) ≤ 0 ∧ (0 : ℤ) < ((4 : ℕ) : ℤ)) ∧ render_cameras_in_range 4 10 3 = [] :=
  ⟨render_cameras_in_range_safe.1 4 (-5) 100 0 (by decide),
   render_cameras_in_range_safe.2 4 10 3 (by decide)⟩

-- --------------------------
-- Command-line flag parsing (get_camera_range_from_args)
-- --------------------------

/-- Python `str.split(sep)` for a one-character separator, over the
character list of the string. -/
def splitOnChar (c : Char) : List Char → List (List Char)
  | [] => [[]]
  | x :: xs =>
    match splitOnChar c xs with
    | [] => [[]]
    | y :: ys => if x = c then [] :: y :: ys else (x :: y) :: ys

/-- Python `str.strip()`: drop leading and trailing whitespace. -/
def trimChars (l : List Char) : List Char :=
  ((l.dropWhile Char.isWhitespace).reverse.dropWhile Char.isWhitespace).reverse

/-- Value of a string of decimal digits. -/
def digitsVal (l : List Char) : ℕ :=
  l.foldl (fun n c => n * 10 + (c.toNat - 48)) 0

/-- Model of Python `int(s)` on an optionally signed decimal literal with
surrounding whitespace: `some` of its value, `none` when `int` would raise
`ValueError` (digit-group underscores are not modelled). -/
def pyIntChars (l : List Char) : Option ℤ :=
  match trimChars l with
  | [] => none
  | c :: rest =>
    let (neg, digits) :=
      if c = '-' then (true, rest)
      else if c = '+' then (false, rest)
      else (false, c :: rest)
    if digits ≠ [] ∧ digits.all Char.isDigit then
      some (if neg then -(digitsVal digits : ℤ) else (digitsVal digits : ℤ))
    else none

/-- Python `s.startswith(p)`. -/
def strStartsWith (s p : String) : Bool := p.data.isPrefixOf s.data

/-- `int(arg.split("=")[1])` as an `Option`: the exception branch of the
`try`/`except ValueError` is `none`. -/
def parseFlagValue (arg : String) : Option ℤ :=
  pyIntChars ((splitOnChar '=' arg.data).getD 1 [])

/-- The body of the `for arg in sys.argv` loop: first the `--start_idx=`
check updates the first component, then the `--end_idx=` check updates the
second; a `ValueError` is swallowed, keeping the held value. -/
def argStep (acc : ℤ × ℤ) (arg : String) : ℤ × ℤ :=
  let acc1 :=
    if strStartsWith arg "--start_idx=" then
      match parseFlagValue arg with
      | some v => (v, acc.2)
      | none => acc
    else acc
  if strStartsWith arg "--end_idx=" then
    match parseFlagValue arg with
    | some v => (acc1.1, v)
    | none => acc1
  else acc1

/-- `get_camera_range_from_args(default_start, default_end)` scanning the
whole of `sys.argv`. -/
def get_camera_range_from_args (argv : List String)
    (default_start default_end : ℤ) : ℤ × ℤ :=
  argv.foldl argStep (default_start, default_end)

lemma argStep_fst (acc : ℤ × ℤ) (arg : String) :
    (argStep acc arg).1 =
      if strStartsWith arg "--start_idx=" then (parseFlagValue arg).getD acc.1
      else acc.1 := by
  unfold argStep
  cases hs : strStartsWith arg "--start_idx=" <;>
    cases hp : parseFlagValue arg <;>
      cases he : strStartsWith arg "--end_idx=" <;>
        simp [hs, hp, he]

lemma argStep_snd (acc : ℤ × ℤ) (arg : String) :
    (argStep acc arg).2 =
      if strStartsWith arg "--end_idx=" then (parseFlagValue arg).getD acc.2
      else acc.2 := by
  unfold argStep
  cases hs : strStartsWith arg "--start_idx=" <;>
    cases hp : parseFlagValue arg <;>
      cases he : strStartsWith arg "--end_idx=" <;>
        simp [hs, hp, he]

lemma argStep_none (acc : ℤ × ℤ) (arg : String) (hp : parseFlagValue arg = none) :
    argStep acc arg = acc := by
  unfold argStep
  cases hs : strStartsWith arg "--start_idx=" <;>
    cases he : strStartsWith arg "--end_idx=" <;>
      simp [hs, he, hp]

lemma foldl_argStep_fst (l : List String) (acc : ℤ × ℤ)
    (h : ∀ a ∈ l, strStartsWith a "--start_idx=" = true → parseFlagValue a = none) :
    (l.foldl argStep acc).1 = acc.1 := by
  induction l generalizing acc with
  | nil => rfl
  | cons a l ih =>
    rw [List.foldl_cons, ih _ (fun b hb hsb => h b (List.mem_cons_of_mem a hb) hsb)]
    rw [argStep_fst]
    cases hs : strStartsWith a "--start_idx="
    · simp
    · simp [h a (List.mem_cons_self a l) hs]

lemma foldl_argStep_snd (l : List String) (acc : ℤ × ℤ)
    (h : ∀ a ∈ l, strStartsWith a "--end_idx=" = true → parseFlagValue a = none) :
    (l.foldl argStep acc).2 = acc.2 := by
  induction l generalizing acc with
  | nil => rfl
  | cons a l ih =>
    rw [List.foldl_cons, ih _ (fun b hb hsb => h b (List.mem_cons_of_mem a hb) hsb)]
    rw [argStep_snd]
    cases hs : strStartsWith a "--end_idx="
    · simp
    · simp [h a (List.mem_cons_self a l) hs]

/-- C4: with the defaults (0, 3), a component keeps its default when no
argument carries its flag; when a flag occurs with a valid integer value and
no later occurrence of the same flag parses, the returned component is that
integer (the last parsing occurrence wins); and an argument whose value does
not parse as an integer leaves the held pair unchanged (the `ValueError` is
swallowed). -/
theorem get_camera_range_from_args_spec :
    (∀ argv, (∀ a ∈ argv, strStartsWith a "--start_idx=" = false) →
      (get_camera_range_from_args argv 0 3).1 = 0) ∧
    (∀ argv, (∀ a ∈ argv, strStartsWith a "--end_idx=" = false) →
      (get_camera_range_from_args argv 0 3).2 = 3) ∧
    (∀ l1 arg l2 v, strStartsWith arg "--start_idx=" = true → parseFlagValue arg = some v →
      (∀ a ∈ l2, strStartsWith a "--start_idx=" = true → parseFlagValue a = none) →
      (get_camera_range_from_args (l1 ++ arg :: l2) 0 3).1 = v) ∧
    (∀ l1 arg l2 v, strStartsWith arg "--end_idx=" = true → parseFlagValue arg = some v →
      (∀ a ∈ l2, strStartsWith a "--end_idx=" = true → parseFlagValue a = none) →
      (get_camera_range_from_args (l1 ++ arg :: l2) 0 3).2 = v) ∧
    (∀ argv arg, parseFlagValue arg = none →
      get_camera_range_from_args (argv ++ [arg]) 0 3 = get_camera_range_from_args argv 0 3) := by
  refine ⟨?_, ?_, ?_, ?_, ?_⟩
  · intro argv h
    exact foldl_argStep_fst argv _ (fun a ha hs => absurd hs (by simp [h a ha]))
  · intro argv h
    exact foldl_argStep_snd argv _ (fun a ha hs => absurd hs (by simp [h a ha]))
  · intro l1 arg l2 v hs hp h2
    unfold get_camera_range_from_args
    rw [List.foldl_append, List.foldl_cons]
    rw [foldl_argStep_fst l2 _ h2, argStep_fst, hs, hp]
    rfl
  · intro l1 arg l2 v hs hp h2
    unfold get_camera_range_from_args
    rw [List.foldl_append, List.foldl_cons]
    rw [foldl_argStep_snd l2 _ h2, argStep_snd, hs, hp]
    rfl
  · intro argv arg hp
    unfold get_camera_range_from_args
    rw [List.foldl_append, List.foldl_cons, List.foldl_nil, argStep_none _ _ hp]

/-- Witness for C4: on the command line
`["blender", "--start_idx=abc", "--start_idx=5", "--end_idx=7"]` the parse
returns (5, 7); with no matching flag the defaults (0, 3) survive; and
appending the malformed `--start_idx=9x` changes nothing. -/
theorem get_camera_range_from_args_spec_witness :
    (get_camera_range_from_args
      ["blender", "--start_idx=abc", "--start_idx=5", "--end_idx=7"] 0 3).1 = 5 ∧
    (get_camera_range_from_args
      ["blender", "--start_idx=abc", "--start_idx=5", "--end_idx=7"] 0 3).2 = 7 ∧
    (get_camera_range_from_args ["blender"] 0 3).1 = 0 ∧
    (get_camera_range_from_args ["blender"] 0 3).2 = 3 ∧
    get_camera_range_from_args (["--start_idx=4"] ++ ["--start_idx=9x"]) 0 3 =
      get_camera_range_from_args ["--start_idx=4"] 0 3 :=
  ⟨get_camera_range_from_args_spec.2.2.1 ["blender", "--start_idx=abc"]
      "--start_idx=5" ["--end_idx=7"] 5 (by decide) (by decide) (by decide),
   get_camera_range_from_args_spec.2.2.2.1 ["blender", "--start_idx=abc", "--start_idx=5"]
      "--end_idx=7" [] 7 (by decide) (by decide) (by decide),
   get_camera_range_from_args_spec.1 ["blender"] (by decide),
   get_camera_range_from_args_spec.2.1 ["blender"] (by decide),
   get_camera_range_from_args_spec.2.2.2.2 ["--start_idx=4"] "--start_idx=9x" (by decide)⟩

-- --------------------------
-- Main pipeline of "Manual No Occlusion"
-- --------------------------

/-- The render step of `main` in the first pipeline of the unnamed file:
the command line is parsed with `get_camera_range_from_args`, but the call
`render_cameras_in_range(start_idx=start_idx, end_idx=end_idx)` is commented
out and `render_cameras_in_range(start_idx=0, end_idx=3)` is issued instead.
Returns the parsed pair and the camera indices rendered. -/
def main_manual_no_occlusion (argv : List String) (ncams : ℕ) : (ℤ × ℤ) × List ℤ :=
  let parsed := get_camera_range_from_args argv 0 3
  (parsed, render_cameras_in_range ncams 0 3)

/-- C10: the Manual No Occlusion `main` parses --start_idx and --end_idx but
ignores the parsed values: the rendered index range is that of the hardcoded
pair (0, 3) for every command line, and with the 11 cameras of the rig the
rendered indices are exactly 0, 1, 2, 3. -/
theorem main_no_occlusion_ignores_args :
    (∀ argv ncams,
      (main_manual_no_occlusion argv ncams).1 = get_camera_range_from_args argv 0 3 ∧
      (main_manual_no_occlusion argv ncams).2 = render_cameras_in_range ncams 0 3) ∧
    (∀ argv argv2 ncams,
      (main_manual_no_occlusion argv ncams).2 = (main_manual_no_occlusion argv2 ncams).2) ∧
    render_cameras_in_range 11 0 3 = [0, 1, 2, 3] :=
  ⟨fun _ _ => ⟨rfl, rfl⟩, fun _ _ _ => rfl, by decide⟩

-- --------------------------
-- Camera rig geometry (setup_cameras, both implementations)
-- --------------------------

/-- `math.radians(d)`. -/
noncomputable def radians (d : ℝ) : ℝ := d * Real.pi / 180

/-- Camera position in `Manual_Automation.py`: the angle is offset by +90
degrees and the camera sits at
`(0 + R*cos(angle+90), 0 + R*sin(angle+90), CAMERA_HEIGHT)`. -/
noncomputable def camPosManual (angle : ℕ) : ℝ × ℝ × ℝ :=
  (0 + CAMERA_RADIUS * Real.cos (radians ((angle : ℝ) + 90)),
   0 + CAMERA_RADIUS * Real.sin (radians ((angle : ℝ) + 90)),
   CAMERA_HEIGHT)

/-- Camera position in the unnamed "Manual" scripts:
`(-R*sin(angle), -R*cos(angle), CAMERA_HEIGHT)`. -/
noncomputable def camPosNoOcclusion (angle : ℕ) : ℝ × ℝ × ℝ :=
  (-CAMERA_RADIUS * Real.sin (radians (angle : ℝ)),
   -CAMERA_RADIUS * Real.cos (radians (angle : ℝ)),
   CAMERA_HEIGHT)

/-- Decimal digits of `n` (fuel-structured so that it evaluates in the
kernel); `natReprAux (n+1) n` always has enough fuel. -/
def natReprAux : ℕ → ℕ → List Char
  | 0, _ => []
  | fuel + 1, n =>
    if n < 10 then [Char.ofNat (48 + n)]
    else natReprAux fuel (n / 10) ++ [Char.ofNat (48 + n % 10)]

/-- Python `str(n)` for a natural number. -/
def natRepr (n : ℕ) : List Char := natReprAux (n + 1) n

/-- Python format `{n:03d}` for a natural number: zero-pad to width 3. -/
def pad3 (n : ℕ) : List Char :=
  let s := natRepr n
  if s.length < 3 then List.replicate (3 - s.length) '0' ++ s else s

/-- The camera name pattern `Camera_{angle:03d}` (as a character list). -/
def camName (angle : ℕ) : List Char := "Camera_".data ++ pad3 angle

/-- `angles_deg = [i * CAMERA_ANGLE_STEP for i in range(CAMERA_COUNT)]`. -/
def angles_deg : List ℕ := (List.range CAMERA_COUNT).map (fun i => i * CAMERA_ANGLE_STEP)

/-- The (name, position) pairs created by `setup_cameras` in
`Manual_Automation.py`, in creation order. -/
noncomputable def setup_cameras_manual : List (List Char × (ℝ × ℝ × ℝ)) :=
  angles_deg.map (fun a => (camName a, camPosManual a))

/-- The (name, position) pairs created by `setup_cameras` in the unnamed
"Manual" scripts, in creation order. -/
noncomputable def setup_cameras_no_occlusion : List (List Char × (ℝ × ℝ × ℝ)) :=
  angles_deg.map (fun a => (camName a, camPosNoOcclusion a))

lemma sqrt_of_sq_add_sq_eq_hundred (x y : ℝ) (h : x ^ 2 + y ^ 2 = 100) :
    Real.sqrt (x ^ 2 + y ^ 2) = 10 := by
  rw [h, show (100 : ℝ) = 10 ^ 2 by norm_num]
  exact Real.sqrt_sq (by norm_num)

/-- C1: `setup_cameras` (both implementations) creates, for `i` in
`0..CAMERA_COUNT-1`, the camera named `Camera_{i*CAMERA_ANGLE_STEP:03d}`
whose (x, y) lies at Euclidean distance CAMERA_RADIUS from the origin of the
xy-plane at height z = CAMERA_HEIGHT, from angle parameter
`i * CAMERA_ANGLE_STEP`; the angles are exactly 0, 18, ..., 180 degrees — a
semicircular (180-degree) arc. -/
theorem setup_cameras_semicircle_rig :
    angles_deg = [0, 18, 36, 54, 72, 90, 108, 126, 144, 162, 180] ∧
    setup_cameras_manual.map Prod.fst =
      ["Camera_000".data, "Camera_018".data, "Camera_036".data, "Camera_054".data,
       "Camera_072".data, "Camera_090".data, "Camera_108".data, "Camera_126".data,
       "Camera_144".data, "Camera_162".data, "Camera_180".data] ∧
    setup_cameras_no_occlusion.map Prod.fst = setup_cameras_manual.map Prod.fst ∧
    (∀ i, i < CAMERA_COUNT →
      setup_cameras_manual[i]? =
        some (camName (i * CAMERA_ANGLE_STEP), camPosManual (i * CAMERA_ANGLE_STEP)) ∧
      setup_cameras_no_occlusion[i]? =
        some (camName (i * CAMERA_ANGLE_STEP), camPosNoOcclusion (i * CAMERA_ANGLE_STEP))) ∧
    (∀ a : ℕ,
      Real.sqrt ((camPosManual a).1 ^ 2 + (camPosManual a).2.1 ^ 2) = CAMERA_RADIUS ∧
      (camPosManual a).2.2 = CAMERA_HEIGHT ∧
      Real.sqrt ((camPosNoOcclusion a).1 ^ 2 + (camPosNoOcclusion a).2.1 ^ 2) = CAMERA_RADIUS ∧
      (camPosNoOcclusion a).2.2 = CAMERA_HEIGHT) := by
  refine ⟨by decide, by decide, by decide, ?_, ?_⟩
  · intro i h
    constructor
    · simp [setup_cameras_manual, angles_deg, List.getElem?_map, List.getElem?_range, h]
    · simp [setup_cameras_no_occlusion, angles_deg, List.getElem?_map, List.getElem?_range, h]
  · intro a
    refine ⟨?_, rfl, ?_, rfl⟩
    · simp only [camPosManual, CAMERA_RADIUS, zero_add]
      apply sqrt_of_sq_add_sq_eq_hundred
      have h := Real.sin_sq_add_cos_sq (radians ((a : ℝ) + 90))
      nlinarith [h]
    · simp only [camPosNoOcclusion, CAMERA_RADIUS]
      apply sqrt_of_sq_add_sq_eq_hundred
      have h := Real.sin_sq_add_cos_sq (radians (a : ℝ))
      nlinarith [h]

/-- Witness for C1: the entry at index 0 of both camera lists. -/
theorem setup_cameras_semicircle_rig_witness :
    setup_cameras_manual[0]? =
      some (camName (0 * CAMERA_ANGLE_STEP), camPosManual (0 * CAMERA_ANGLE_STEP)) ∧
    setup_cameras_no_occlusion[0]? =
      some (camName (0 * CAMERA_ANGLE_STEP), camPosNoOcclusion (0 * CAMERA_ANGLE_STEP)) :=
  setup_cameras_semicircle_rig.2.2.2.1 0 (by decide)

/-- C7 counterexample: at angle 0 the two implementations of `setup_cameras`
place `Camera_000` at different positions — `Manual_Automation.py` puts it at
(0, 10, 1.5) while the unnamed script puts it at (0, -10, 1.5). -/
theorem setup_cameras_disagree_at_angle_zero :
    camPosManual 0 ≠ camPosNoOcclusion 0 := by
  intro h
  have h2 := congrArg (fun p : ℝ × ℝ × ℝ => p.2.1) h
  simp only [camPosManual, camPosNoOcclusion, radians, CAMERA_RADIUS] at h2
  rw [show (((0 : ℕ) : ℝ) + 90) * Real.pi / 180 = Real.pi / 2 by push_cast; ring] at h2
  rw [show ((0 : ℕ) : ℝ) * Real.pi / 180 = 0 by push_cast; ring] at h2
  rw [Real.sin_pi_div_two, Real.cos_zero] at h2
  norm_num at h2

/-- C7 amended: for every angle the two implementations agree on x and z but
negate y — the rigs are mirror images across the xz-plane (so they coincide
exactly where the y-component vanishes, i.e. at 90 degrees). -/
theorem setup_cameras_mirror_across_xz (angle : ℕ) :
    (camPosNoOcclusion angle).1 = (camPosManual angle).1 ∧
    (camPosNoOcclusion angle).2.1 = -(camPosManual angle).2.1 ∧
    (camPosNoOcclusion angle).2.2 = (camPosManual angle).2.2 := by
  have hsplit : ((angle : ℝ) + 90) * Real.pi / 180 =
      (angle : ℝ) * Real.pi / 180 + Real.pi / 2 := by ring
  refine ⟨?_, ?_, rfl⟩
  · simp only [camPosManual, camPosNoOcclusion, radians]
    rw [hsplit, Real.cos_add_pi_div_two]
    ring
  · simp only [camPosManual, camPosNoOcclusion, radians]
    rw [hsplit, Real.sin_add_pi_div_two]
    ring

-- --------------------------
-- Occlusion pole import (Manual With Occlusion)
-- --------------------------

def WORKSPACE_DIR : String := "D:\\Gait Project\\Master\\workspace"

/-- `os.path.join` on the Windows platform the scripts target, for a
relative second component. -/
def ospath_join (a b : String) : String := a ++ "\\" ++ b

/-- `os.path.join(WORKSPACE_DIR, "occlusions", "pole.fbx")`. -/
def pole_path : String := ospath_join (ospath_join WORKSPACE_DIR "occlusions") "pole.fbx"

/-- `import_occlusion_pole(subject_location, offset)` over an abstract
filesystem `fs` (the set of existing paths): when the pole file is missing it
prints a warning and returns `None` (no exception — the function is total);
when it exists, the imported pole is placed at `subject_location + offset`
componentwise and returned. -/
noncomputable def import_occlusion_pole (fs : String → Bool)
    (subject_location offset : ℝ × ℝ × ℝ) : Option (ℝ × ℝ × ℝ) :=
  if fs pole_path then
    some (subject_location.1 + offset.1,
          subject_location.2.1 + offset.2.1,
          subject_location.2.2 + offset.2.2)
  else none

/-- C5: occlusion is optional — a missing pole file yields `none` (and no
exception, the model being a total function into `Option`), while an
existing pole file yields the pole placed at subject_location + offset
componentwise. -/
theorem import_occlusion_pole_optional :
    (∀ (fs : String → Bool) (loc off : ℝ × ℝ × ℝ), fs pole_path = false →
      import_occlusion_pole fs loc off = none) ∧
    (∀ (fs : String → Bool) (loc off : ℝ × ℝ × ℝ), fs pole_path = true →
      import_occlusion_pole fs loc off =
        some (loc.1 + off.1, loc.2.1 + off.2.1, loc.2.2 + off.2.2)) := by
  constructor <;> intro fs loc off h <;> simp [import_occlusion_pole, h]

/-- Witness for C5: an empty filesystem yields `none`; a full filesystem
yields the pole at (0, 2, 0) + (-2, 0, 0). -/
theorem import_occlusion_pole_optional_witness :
    import_occlusion_pole (fun _ => false) (0, 2, 0) (-2, 0, 0) = none ∧
    import_occlusion_pole (fun _ => true) (0, 2, 0) (-2, 0, 0) =
      some ((0 : ℝ) + -2, (2 : ℝ) + 0, (0 : ℝ) + 0) :=
  ⟨import_occlusion_pole_optional.1 (fun _ => false) (0, 2, 0) (-2, 0, 0) rfl,
   import_occlusion_pole_optional.2 (fun _ => true) (0, 2, 0) (-2, 0, 0) rfl⟩

-- --------------------------
-- Guarded imports (import_subject / import_and_retarget_bvh)
-- --------------------------

/-- `import_subject(filepath)` over an abstract filesystem: raises
`FileNotFoundError` (the `error` branch) when the path does not exist, and
otherwise invokes `bpy.ops.mpfb.human_from_mhm` — the `ok` branch carries
the (operator, filepath) calls issued. -/
def import_subject (fs : String → Bool) (filepath : String) :
    Except String (List (String × String)) :=
  if fs filepath then Except.ok [("mpfb.human_from_mhm", filepath)]
  else Except.error ("Subject file not found: " ++ filepath)

/-- `import_and_retarget_bvh(filepath, target)` over an abstract filesystem:
raises `FileNotFoundError` when the path does not exist, and otherwise
invokes `bpy.ops.mcp.load_and_retarget` on the file (passed as its basename
plus directory). -/
def import_and_retarget_bvh (fs : String → Bool) (filepath : String) :
    Except String (List (String × String)) :=
  if fs filepath then Except.ok [("mcp.load_and_retarget", filepath)]
  else Except.error ("BVH file not found: " ++ filepath)

/-- C9: both importers check the path before touching the host application:
a nonexistent path raises `FileNotFoundError` with the corresponding
message, and every operator call an `ok` run issues names an existing file —
no import operator is ever invoked with a nonexistent file. -/
theorem importers_check_path_before_operator :
    (∀ (fs : String → Bool) (p : String), fs p = false →
      import_subject fs p = Except.error ("Subject file not found: " ++ p)) ∧
    (∀ (fs : String → Bool) (p : String), fs p = false →
      import_and_retarget_bvh fs p = Except.error ("BVH file not found: " ++ p)) ∧
    (∀ (fs : String → Bool) (p : String) ops, import_subject fs p = Except.ok ops →
      fs p = true ∧ ∀ c ∈ ops, fs c.2 = true) ∧
    (∀ (fs : String → Bool) (p : String) ops, import_and_retarget_bvh fs p = Except.ok ops →
      fs p = true ∧ ∀ c ∈ ops, fs c.2 = true) := by
  refine ⟨?_, ?_, ?_, ?_⟩
  · intro fs p h
    simp [import_subject, h]
  · intro fs p h
    simp [import_and_retarget_bvh, h]
  · intro fs p ops h
    cases hf : fs p <;> simp [import_subject, hf] at h
    subst h
    simp [hf]
  · intro fs p ops h
    cases hf : fs p <;> simp [import_and_retarget_bvh, hf] at h
    subst h
    simp [hf]

/-- Witness for C9: on a filesystem without the subject file, the
`FileNotFoundError` branches fire; on one with every file, the `ok` runs only
name existing files. -/
theorem importers_check_path_before_operator_witness :
    import_subject (fun _ => false) "subject0002.mhm" =
      Except.error ("Subject file not found: " ++ "subject0002.mhm") ∧
    import_and_retarget_bvh (fun _ => false) "02_01.bvh" =
      Except.error ("BVH file not found: " ++ "02_01.bvh") ∧
    ((fun _ : String => true) "subject0002.mhm" = true ∧
      ∀ c ∈ [("mpfb.human_from_mhm", "subject0002.mhm")],
        (fun _ : String => true) c.2 = true) ∧
    ((fun _ : String => true) "02_01.bvh" = true ∧
      ∀ c ∈ [("mcp.load_and_retarget", "02_01.bvh")],
        (fun _ : String => true) c.2 = true) :=
  ⟨importers_check_path_before_operator.1 (fun _ => false) "subject0002.mhm" rfl,
   importers_check_path_before_operator.2.1 (fun _ => false) "02_01.bvh" rfl,
   importers_check_path_before_operator.2.2.1 (fun _ => true) "subject0002.mhm"
     [("mpfb.human_from_mhm", "subject0002.mhm")] rfl,
   importers_check_path_before_operator.2.2.2 (fun _ => true) "02_01.bvh"
     [("mcp.load_and_retarget", "02_01.bvh")] rfl⟩

-- --------------------------
-- Batch controller (blender_batch_controller.py)
-- --------------------------

def BLENDER_EXE : String := "C:\\Program Files\\Blender Foundation\\Blender 4.5\\blender.exe"
def BLENDER_SCRIPT : String := "d:\\Gait Project\\Master\\workspace\\Manual_Automation.py"
def BLEND_FILE : String := "d:\\Gait Project\\Master\\workspace\\Master.blend"

def CAMERA_BATCHES : List (ℤ × ℤ) := [(0, 3), (4, 7), (8, 10)]

/-- Python `str(v)` for an integer. -/
def intRepr (v : ℤ) : String :=
  match v with
  | Int.ofNat n => String.mk (natRepr n)
  | Int.negSucc n => String.mk ('-' :: natRepr (n + 1))

/-- The argument vector `run_blender_batch` passes to `subprocess.run`. -/
def run_blender_batch_cmd (start_idx end_idx : ℤ) : List String :=
  [BLENDER_EXE, "--background", BLEND_FILE, "--python", BLENDER_SCRIPT, "--",
   "--start_idx=" ++ intRepr start_idx, "--end_idx=" ++ intRepr end_idx]

/-- `run_blender_batch(start_idx, end_idx)` given the exit code `ret` of the
launched subprocess: the pair of the command launched and the message
printed afterwards. -/
def run_blender_batch (ret : ℤ) (p : ℤ × ℤ) : List String × String :=
  (run_blender_batch_cmd p.1 p.2,
   if ret = 0 then
     "[INFO] Batch " ++ intRepr p.1 ++ "-" ++ intRepr p.2 ++ " completed successfully."
   else
     "[ERROR] Batch " ++ intRepr p.1 ++ "-" ++ intRepr p.2 ++
       " failed with code " ++ intRepr ret ++ ".")

/-- `main` of the batch controller, given the exit code each batch's
subprocess would return: the sequence of (command, message) pairs, one per
entry of CAMERA_BATCHES, in list order. -/
def controller_main (ret : ℤ × ℤ → ℤ) : List (List String × String) :=
  CAMERA_BATCHES.map (fun p => run_blender_batch (ret p) p)

/-- C6: whatever exit codes the subprocesses return, the controller launches
exactly one Blender subprocess per entry of CAMERA_BATCHES, in list order,
with that entry's pair passed as `--start_idx`/`--end_idx` flags; the exit
codes never change the launched sequence (they only pick the message), so a
failing batch never aborts the run. -/
theorem controller_launches_every_batch :
    (∀ ret : ℤ × ℤ → ℤ,
      (controller_main ret).map Prod.fst =
        CAMERA_BATCHES.map (fun p => run_blender_batch_cmd p.1 p.2)) ∧
    (∀ ret ret2 : ℤ × ℤ → ℤ,
      (controller_main ret).map Prod.fst = (controller_main ret2).map Prod.fst) ∧
    (∀ ret : ℤ × ℤ → ℤ, (controller_main ret).length = CAMERA_BATCHES.length) ∧
    run_blender_batch_cmd 0 3 =
      [BLENDER_EXE, "--background", BLEND_FILE, "--python", BLENDER_SCRIPT, "--",
       "--start_idx=0", "--end_idx=3"] ∧
    run_blender_batch_cmd 4 7 =
      [BLENDER_EXE, "--background", BLEND_FILE, "--python", BLENDER_SCRIPT, "--",
       "--start_idx=4", "--end_idx=7"] ∧
    run_blender_batch_cmd 8 10 =
      [BLENDER_EXE, "--background", BLEND_FILE, "--python", BLENDER_SCRIPT, "--",
       "--start_idx=8", "--end_idx=10"] :=
  ⟨fun _ => rfl, fun _ _ => rfl, fun _ => rfl, by decide, by decide, by decide⟩

/-- Witness for C2: frame 2 lies in exactly one batch, and the first batch
(2, 11), which is not the last, spans exactly RENDER_BATCH_SIZE frames. -/
theorem render_batches_partition_frame_range_witness :
    (coveringBatches 2).length = 1 ∧
    ((2, 11) : ℕ × ℕ).2 + 1 - ((2, 11) : ℕ × ℕ).1 = RENDER_BATCH_SIZE :=
  ⟨render_batches_partition_frame_range.1 2 (Finset.mem_Icc.mpr (by decide)),
   render_batches_partition_frame_range.2.2 (2, 11) (by decide)⟩

/-- Witness for C3: frame 12 passes the remainder test and is a batch start. -/
theorem batch_boundary_iff_modulus_witness : (12 : ℕ) ∈ batch_starts :=
  (batch_boundary_iff_modulus 12).mpr (by decide)
